import Mathlib

/-!
Shallow embedding of `src/gocl/gocl-device.c` from Gocl, a GLib/GObject
wrapper for OpenCL, together with the small pieces of its environment the
device code interacts with (the GObject reference-counting heap, the OpenCL
`clGetDeviceInfo` call, `g_initable_new` queue construction, and the
repository's error-translation helper).

Modelling conventions:
* GObject references are object identifiers (`Nat`); `NULL` is `Option.none`.
* Reference counts live in an explicit `Heap` with one count map per object
  class (contexts and queues), counts as `Int` so that a decrement is exact.
* The native OpenCL layer is an oracle passed to each call:
  `Except Int Nat` for `clGetDeviceInfo` (`.ok v` means the call returned
  `CL_SUCCESS` and wrote `v` into the caller's buffer, `.error c` means it
  returned status `c` and left the buffer untouched), and
  `Except GErrorV Nat` for queue construction via `g_initable_new`
  (`.ok qid` yields a fresh queue object, `.error e` returns `NULL` and
  fills the caller's error).
* Each stateful operation returns a result record that also records whether
  the native layer was consulted, so claims about "no additional native
  query" are directly statable.
-/

/-- A structured GError value: an error domain tag and a numeric code. -/
structure GErrorV where
  domain : String
  code : Int
deriving DecidableEq, Repr

/-- Modelled from the spec: `gocl_error_check_opencl` lives in gocl-error.c,
which is not under src/. Per the spec it is "given a native status code,
returns whether it represents failure; on failure, populates an output error
object with a domain tag ("compute-api") and the numeric code". `none` models
returning FALSE (no failure); `some e` models returning TRUE with the output
error set to `e`. `CL_SUCCESS` is the status code 0. -/
def gocl_error_check_opencl (err_code : Int) : Option GErrorV :=
  if err_code = 0 then none else some ⟨"compute-api", err_code⟩

/-- A GoclQueue object as constructed by `gocl_device_get_default_queue`:
its object identifier and the value of its construct-time "device"
property (the device that the queue is bound to). -/
structure GoclQueueObj where
  id : Nat
  device : Nat
deriving DecidableEq, Repr

/-- The instance-private data of a GoclDevice, mirroring
`struct _GoclDevicePrivate` (gocl-device.c lines 47-55): the owning context
reference, the native `cl_device_id`, the cached maximum work-group size and
the cached default queue. -/
structure GoclDevicePrivate where
  context : Option Nat
  device_id : Nat
  max_work_group_size : Nat
  queue : Option GoclQueueObj
deriving DecidableEq, Repr

/-- Reference counts of the GObject heap, one map per object class that the
device code refs or unrefs: contexts and queues, keyed by object identifier. -/
structure Heap where
  ctxRefcount : Nat → Int
  queueRefcount : Nat → Int

/-- The effect of `g_object_ref` on a context object. -/
def ctxRef (c : Nat) (h : Heap) : Heap :=
  { h with ctxRefcount := fun x => if x = c then h.ctxRefcount x + 1 else h.ctxRefcount x }

/-- The effect of `g_object_unref` on a context object. -/
def ctxUnref (c : Nat) (h : Heap) : Heap :=
  { h with ctxRefcount := fun x => if x = c then h.ctxRefcount x - 1 else h.ctxRefcount x }

/-- The effect of `g_object_unref` on a queue object. -/
def queueUnref (q : Nat) (h : Heap) : Heap :=
  { h with queueRefcount := fun x => if x = q then h.queueRefcount x - 1 else h.queueRefcount x }

/-- A GValue as passed to set_property: it carries either an object
reference (possibly NULL) or a raw pointer, modelled as a `Nat`. -/
inductive GValueV
  | objectV (o : Option Nat)
  | pointerV (p : Nat)
deriving DecidableEq, Repr

/-- The object contents of a GValue (`g_value_get_object` view). -/
def GValueV.asObject : GValueV → Option Nat
  | .objectV o => o
  | .pointerV _ => none

/-- The pointer contents of a GValue (`g_value_get_pointer` view). -/
def GValueV.asPointer : GValueV → Nat
  | .objectV _ => 0
  | .pointerV p => p

/-- The effect of `g_value_dup_object`: returns the object held by the
GValue and, when it is not NULL, takes a reference on it. -/
def g_value_dup_object (v : GValueV) (h : Heap) : Option Nat × Heap :=
  match v.asObject with
  | none => (none, h)
  | some c => (some c, ctxRef c h)

/-- The property identifiers installed by `gocl_device_class_init`
(gocl-device.c lines 58-63); `other` stands for any invalid property id. -/
inductive GoclDeviceProp
  | propContext
  | propId
  | other
deriving DecidableEq, Repr

/-- The "context" property is installed with `G_PARAM_CONSTRUCT_ONLY`
(gocl-device.c line 99): the GObject property system only sets it during
construction and refuses any later assignment. -/
def context_property_construct_only : Bool := true

/-- Zero-initialized instance memory, as the GObject type system allocates
it before `gocl_device_init` and the construct properties run. -/
def zeroInstance : GoclDevicePrivate :=
  { context := none, device_id := 0, max_work_group_size := 0, queue := none }

/-- Mirrors `gocl_device_init` (gocl-device.c lines 112-121): sets the
cached maximum work-group size to 0 and the cached queue to NULL. -/
def gocl_device_init (s : GoclDevicePrivate) : GoclDevicePrivate :=
  { s with max_work_group_size := 0, queue := none }

/-- Mirrors `set_property` (gocl-device.c lines 143-167): the "context"
property is stored via `g_value_dup_object` (taking a reference), the "id"
property is stored as a raw pointer, and an invalid property id only emits
a warning and changes nothing. -/
def set_property (s : GoclDevicePrivate) (h : Heap) (prop : GoclDeviceProp)
    (value : GValueV) : GoclDevicePrivate × Heap :=
  match prop with
  | .propContext =>
      let r := g_value_dup_object value h
      ({ s with context := r.1 }, r.2)
  | .propId => ({ s with device_id := value.asPointer }, h)
  | .other => (s, h)

/-- Mirrors `get_property` (gocl-device.c lines 169-193) for the "context"
property. -/
def get_property_context (s : GoclDevicePrivate) : Option Nat :=
  s.context

/-- Mirrors `get_property` (gocl-device.c lines 169-193) for the "id"
property. -/
def get_property_id (s : GoclDevicePrivate) : Nat :=
  s.device_id

/-- Construction of a GoclDevice via `g_object_new` with the two
construct-only properties "context" and "id": zero-initialized instance
memory, then `gocl_device_init`, then `set_property` for each construct
property, exactly the GObject construction sequence. -/
def gocl_device_construct (ctx : Option Nat) (did : Nat) (h : Heap) :
    GoclDevicePrivate × Heap :=
  let s0 := gocl_device_init zeroInstance
  let r1 := set_property s0 h .propContext (.objectV ctx)
  set_property r1.1 r1.2 .propId (.pointerV did)

/-- Mirrors `gocl_device_dispose` (gocl-device.c lines 123-141): unref the
context if held and set the field to NULL, then unref the cached queue if
held and set the field to NULL. -/
def gocl_device_dispose (s : GoclDevicePrivate) (h : Heap) :
    GoclDevicePrivate × Heap :=
  let r1 :=
    match s.context with
    | some c => (({ s with context := none } : GoclDevicePrivate), ctxUnref c h)
    | none => (s, h)
  match r1.1.queue with
  | some q => ({ r1.1 with queue := none }, queueUnref q.id r1.2)
  | none => (r1.1, r1.2)

/-- Mirrors `gocl_device_get_id` (gocl-device.c lines 205-211):
`g_return_val_if_fail (GOCL_IS_DEVICE (self), NULL)` then returns the
device id. `is_dev` is the value of the `GOCL_IS_DEVICE` instance check;
`none` models the NULL return of the failed check. -/
def gocl_device_get_id (is_dev : Bool) (s : GoclDevicePrivate) : Option Nat :=
  if is_dev then some s.device_id else none

/-- Mirrors `gocl_device_get_context` (gocl-device.c lines 222-228):
`g_return_val_if_fail (GOCL_IS_DEVICE (device), NULL)` then returns the
stored context reference. -/
def gocl_device_get_context (is_dev : Bool) (s : GoclDevicePrivate) : Option Nat :=
  if is_dev then s.context else none

/-- Result of a `gocl_device_get_max_work_group_size` call: the returned
size, the output error, the device state after the call, and whether
`clGetDeviceInfo` was invoked. -/
structure MwgsResult where
  ret : Nat
  error : Option GErrorV
  state : GoclDevicePrivate
  queried : Bool
deriving DecidableEq, Repr

/-- Mirrors `gocl_device_get_max_work_group_size` (gocl-device.c lines
243-262): instance check returning 0 on failure; return the cached value if
it is positive; otherwise call `clGetDeviceInfo` with the cached field as
output buffer (the oracle `native`), translate the status code through
`gocl_error_check_opencl`, return 0 on failure and the freshly written
field on success. -/
def gocl_device_get_max_work_group_size (is_dev : Bool)
    (native : Except Int Nat) (s : GoclDevicePrivate) : MwgsResult :=
  if ¬ is_dev then ⟨0, none, s, false⟩
  else if s.max_work_group_size > 0 then ⟨s.max_work_group_size, none, s, false⟩
  else
    let step : Int × GoclDevicePrivate :=
      match native with
      | .ok v => (0, { s with max_work_group_size := v })
      | .error c => (c, s)
    match gocl_error_check_opencl step.1 with
    | some e => ⟨0, some e, step.2, true⟩
    | none => ⟨step.2.max_work_group_size, none, step.2, true⟩

/-- Result of a `gocl_device_get_default_queue` call: the returned queue,
the output error, the device state after the call, and whether
`g_initable_new` was invoked to construct a queue. -/
structure QueueResult where
  ret : Option GoclQueueObj
  error : Option GErrorV
  state : GoclDevicePrivate
  constructed : Bool
deriving DecidableEq, Repr

/-- Mirrors `gocl_device_get_default_queue` (gocl-device.c lines 275-289).
The source performs no `GOCL_IS_DEVICE` instance check, so the `is_dev`
flag is accepted but never consulted. If no queue is cached, a queue bound
to this device (`self_ref`, passed as the "device" construct property) is
constructed via `g_initable_new` (the oracle `native`): on failure NULL is
stored and returned and the error is filled; on success the fresh queue is
stored. Finally the stored field is returned. -/
def gocl_device_get_default_queue (_is_dev : Bool) (self_ref : Nat)
    (native : Except GErrorV Nat) (s : GoclDevicePrivate) : QueueResult :=
  if s.queue = none then
    match native with
    | .error e => ⟨none, some e, { s with queue := none }, true⟩
    | .ok qid =>
        let q : GoclQueueObj := ⟨qid, self_ref⟩
        ⟨some q, none, { s with queue := some q }, true⟩
  else ⟨s.queue, none, s, false⟩

/-- Whether a `clGetDeviceInfo` oracle outcome is a success. -/
def isOkInfo : Except Int Nat → Bool
  | .ok _ => true
  | .error _ => false

/-- Fold a sequence of `gocl_device_get_max_work_group_size` calls (one
native oracle per call) over a device state; returns the final state and
whether any executed native query succeeded along the way. -/
def runMwgs : List (Except Int Nat) → GoclDevicePrivate → GoclDevicePrivate × Bool
  | [], s => (s, false)
  | o :: os, s =>
      let r := gocl_device_get_max_work_group_size true o s
      let rest := runMwgs os r.state
      (rest.1, (r.queried && isOkInfo o) || rest.2)

/-- Modelled from the spec: gocl-context.c is not under src/. Per the spec a
context holds "an ordered sequence of owned Device entities" populated
"exactly once at construction and immutable thereafter"; here the context
object identifier together with the ordered native device handles
enumerated at construction. -/
structure GoclContextObj where
  id : Nat
  deviceIds : List Nat
deriving DecidableEq, Repr

/-- Modelled from the spec: `gocl_context_get_num_devices` (gocl-context.c,
not under src/) "returns the immutable count from construction". -/
def gocl_context_get_num_devices (ctx : GoclContextObj) : Nat :=
  ctx.deviceIds.length

/-- Modelled from the spec: `gocl_context_get_device_by_index`
(gocl-context.c, not under src/). Per the spec devices are "created only by
a Context during its enumeration pass" and wrapped from the context's
device handles; the wrapper is constructed with this context as the
construct-only "context" property and the i-th native handle as "id".
Out-of-range indices yield no device. -/
def gocl_context_get_device_by_index (ctx : GoclContextObj) (i : Nat)
    (h : Heap) : Option GoclDevicePrivate × Heap :=
  match ctx.deviceIds.get? i with
  | none => (none, h)
  | some did =>
      let r := gocl_device_construct (some ctx.id) did h
      (some r.1, r.2)

/-! ## Helper lemmas -/

/-- A call with a positive cached value returns it unchanged, without any
native query. -/
lemma mwgs_cached (o : Except Int Nat) (s : GoclDevicePrivate)
    (h : 0 < s.max_work_group_size) :
    gocl_device_get_max_work_group_size true o s
      = ⟨s.max_work_group_size, none, s, false⟩ := by
  simp [gocl_device_get_max_work_group_size, h]

/-- After a call that returned a positive value, the cached field equals the
returned value. -/
lemma mwgs_ret_pos_state (o : Except Int Nat) (s : GoclDevicePrivate)
    (h : 0 < (gocl_device_get_max_work_group_size true o s).ret) :
    (gocl_device_get_max_work_group_size true o s).state.max_work_group_size
      = (gocl_device_get_max_work_group_size true o s).ret := by
  by_cases hc : 0 < s.max_work_group_size
  · simp [mwgs_cached o s hc]
  · cases o with
    | ok v =>
        simp [gocl_device_get_max_work_group_size, hc, gocl_error_check_opencl]
    | error c =>
        by_cases h0 : c = 0
        · subst h0
          simp [gocl_device_get_max_work_group_size, hc,
                gocl_error_check_opencl] at h
        · simp [gocl_device_get_max_work_group_size, hc,
                gocl_error_check_opencl, h0] at h

/-- Once the cached field is positive, any sequence of further calls leaves
the state unchanged and performs no successful (indeed no) query. -/
lemma runMwgs_pos (os : List (Except Int Nat)) (s : GoclDevicePrivate)
    (h : 0 < s.max_work_group_size) :
    runMwgs os s = (s, false) := by
  induction os with
  | nil => rfl
  | cons o os ih =>
      simp [runMwgs, mwgs_cached o s h, ih]

/-- Updating the queue field to NULL when it already is NULL is the
identity. -/
lemma set_queue_none_eq (s : GoclDevicePrivate) (h : s.queue = none) :
    ({ s with queue := none } : GoclDevicePrivate) = s := by
  cases s
  simp_all

/-! ## Claim theorems -/

/-- C1: for every device, if a call to `gocl_device_get_max_work_group_size`
succeeds (returns a positive size, per the source's contract "Upon success a
value greater than zero is returned"), then a second call returns the
identical value, reports no error, and performs no native device-info
query: the value is memoized and the cached non-zero value is returned. -/
theorem getMaxWorkGroupSize_memoized (s : GoclDevicePrivate)
    (o1 o2 : Except Int Nat)
    (h1 : 0 < (gocl_device_get_max_work_group_size true o1 s).ret) :
    (gocl_device_get_max_work_group_size true o2
        (gocl_device_get_max_work_group_size true o1 s).state).ret
      = (gocl_device_get_max_work_group_size true o1 s).ret ∧
    (gocl_device_get_max_work_group_size true o2
        (gocl_device_get_max_work_group_size true o1 s).state).queried = false ∧
    (gocl_device_get_max_work_group_size true o2
        (gocl_device_get_max_work_group_size true o1 s).state).error = none := by
  have hs := mwgs_ret_pos_state o1 s h1
  have hpos : 0 < (gocl_device_get_max_work_group_size true o1 s).state.max_work_group_size := by
    rw [hs]; exact h1
  rw [mwgs_cached o2 _ hpos]
  exact ⟨hs, rfl, rfl⟩

/-- Witness for C1 at a concrete fresh device and a successful first
query. -/
theorem getMaxWorkGroupSize_memoized_witness :
    0 < (gocl_device_get_max_work_group_size true (.ok 256) zeroInstance).ret ∧
    ((gocl_device_get_max_work_group_size true (.error 3)
        (gocl_device_get_max_work_group_size true (.ok 256) zeroInstance).state).ret
      = (gocl_device_get_max_work_group_size true (.ok 256) zeroInstance).ret ∧
    (gocl_device_get_max_work_group_size true (.error 3)
        (gocl_device_get_max_work_group_size true (.ok 256) zeroInstance).state).queried = false ∧
    (gocl_device_get_max_work_group_size true (.error 3)
        (gocl_device_get_max_work_group_size true (.ok 256) zeroInstance).state).error = none) :=
  ⟨by decide, getMaxWorkGroupSize_memoized zeroInstance (.ok 256) (.error 3) (by decide)⟩

/-- C2: for every device with no cached queue, a failing
`gocl_device_get_default_queue` call returns NULL, surfaces the underlying
construction error to the caller, and leaves the device state exactly as it
was (no queue cached), so a retry attempts construction again from the same
state and can succeed. -/
theorem getDefaultQueue_failure_retry (s : GoclDevicePrivate) (d qid : Nat)
    (e : GErrorV) (h : s.queue = none) :
    (gocl_device_get_default_queue true d (.error e) s).ret = none ∧
    (gocl_device_get_default_queue true d (.error e) s).error = some e ∧
    (gocl_device_get_default_queue true d (.error e) s).state = s ∧
    (gocl_device_get_default_queue true d (.ok qid)
        (gocl_device_get_default_queue true d (.error e) s).state).constructed = true ∧
    (gocl_device_get_default_queue true d (.ok qid)
        (gocl_device_get_default_queue true d (.error e) s).state).ret
      = some ⟨qid, d⟩ := by
  simp [gocl_device_get_default_queue, h, set_queue_none_eq s h]

/-- Witness for C2 at a concrete fresh device. -/
theorem getDefaultQueue_failure_retry_witness :
    zeroInstance.queue = none ∧
    ((gocl_device_get_default_queue true 4 (.error ⟨"compute-api", -6⟩) zeroInstance).ret = none ∧
    (gocl_device_get_default_queue true 4 (.error ⟨"compute-api", -6⟩) zeroInstance).error
      = some ⟨"compute-api", -6⟩ ∧
    (gocl_device_get_default_queue true 4 (.error ⟨"compute-api", -6⟩) zeroInstance).state
      = zeroInstance ∧
    (gocl_device_get_default_queue true 4 (.ok 9)
        (gocl_device_get_default_queue true 4 (.error ⟨"compute-api", -6⟩) zeroInstance).state).constructed
      = true ∧
    (gocl_device_get_default_queue true 4 (.ok 9)
        (gocl_device_get_default_queue true 4 (.error ⟨"compute-api", -6⟩) zeroInstance).state).ret
      = some ⟨9, 4⟩) :=
  ⟨rfl, getDefaultQueue_failure_retry zeroInstance 4 9 ⟨"compute-api", -6⟩ rfl⟩

/-- C4: for every device whose size is not yet cached, when the native
max-work-group-size query fails with a non-success status code,
`gocl_device_get_max_work_group_size` returns zero and fills the output
error with a structured error from the "compute-api" domain carrying the
translated native status code. -/
theorem getMaxWorkGroupSize_error (s : GoclDevicePrivate) (c : Int)
    (h0 : s.max_work_group_size = 0) (hc : c ≠ 0) :
    (gocl_device_get_max_work_group_size true (.error c) s).ret = 0 ∧
    (gocl_device_get_max_work_group_size true (.error c) s).error
      = some ⟨"compute-api", c⟩ := by
  simp [gocl_device_get_max_work_group_size, h0, gocl_error_check_opencl, hc]

/-- Witness for C4 at a concrete fresh device and failing status -30. -/
theorem getMaxWorkGroupSize_error_witness :
    zeroInstance.max_work_group_size = 0 ∧ (-30 : Int) ≠ 0 ∧
    ((gocl_device_get_max_work_group_size true (.error (-30)) zeroInstance).ret = 0 ∧
    (gocl_device_get_max_work_group_size true (.error (-30)) zeroInstance).error
      = some ⟨"compute-api", -30⟩) :=
  ⟨rfl, by decide, getMaxWorkGroupSize_error zeroInstance (-30) rfl (by decide)⟩

/-- C5: for every device with no cached queue, a successful
`gocl_device_get_default_queue` call constructs a queue bound to this
device (its "device" property is this device) and caches it, and a second
call returns the identical cached queue object without constructing
another, regardless of what the native layer would do. -/
theorem getDefaultQueue_identity (s : GoclDevicePrivate) (d qid : Nat)
    (o2 : Except GErrorV Nat) (h : s.queue = none) :
    (gocl_device_get_default_queue true d (.ok qid) s).ret = some ⟨qid, d⟩ ∧
    (gocl_device_get_default_queue true d (.ok qid) s).state.queue = some ⟨qid, d⟩ ∧
    (gocl_device_get_default_queue true d o2
        (gocl_device_get_default_queue true d (.ok qid) s).state).ret
      = (gocl_device_get_default_queue true d (.ok qid) s).ret ∧
    (gocl_device_get_default_queue true d o2
        (gocl_device_get_default_queue true d (.ok qid) s).state).constructed = false ∧
    (gocl_device_get_default_queue true d o2
        (gocl_device_get_default_queue true d (.ok qid) s).state).state
      = (gocl_device_get_default_queue true d (.ok qid) s).state := by
  simp [gocl_device_get_default_queue, h]

/-- Witness for C5 at a concrete fresh device. -/
theorem getDefaultQueue_identity_witness :
    zeroInstance.queue = none ∧
    ((gocl_device_get_default_queue true 4 (.ok 9) zeroInstance).ret = some ⟨9, 4⟩ ∧
    (gocl_device_get_default_queue true 4 (.ok 9) zeroInstance).state.queue = some ⟨9, 4⟩ ∧
    (gocl_device_get_default_queue true 4 (.ok 11)
        (gocl_device_get_default_queue true 4 (.ok 9) zeroInstance).state).ret
      = (gocl_device_get_default_queue true 4 (.ok 9) zeroInstance).ret ∧
    (gocl_device_get_default_queue true 4 (.ok 11)
        (gocl_device_get_default_queue true 4 (.ok 9) zeroInstance).state).constructed = false ∧
    (gocl_device_get_default_queue true 4 (.ok 11)
        (gocl_device_get_default_queue true 4 (.ok 9) zeroInstance).state).state
      = (gocl_device_get_default_queue true 4 (.ok 9) zeroInstance).state) :=
  ⟨rfl, getDefaultQueue_identity zeroInstance 4 9 (.ok 11) rfl⟩

/-- C9: on an argument failing the `GOCL_IS_DEVICE` instance check,
`gocl_device_get_id` returns NULL, `gocl_device_get_context` returns NULL,
and `gocl_device_get_max_work_group_size` returns 0 with no native call, no
state change and no error; `gocl_device_get_default_queue` performs no such
instance check, so its behavior is independent of the check's outcome. -/
theorem invalidInstance_guards (s : GoclDevicePrivate) (o : Except Int Nat)
    (d : Nat) (oq : Except GErrorV Nat) :
    gocl_device_get_id false s = none ∧
    gocl_device_get_context false s = none ∧
    (gocl_device_get_max_work_group_size false o s).ret = 0 ∧
    (gocl_device_get_max_work_group_size false o s).queried = false ∧
    (gocl_device_get_max_work_group_size false o s).state = s ∧
    (gocl_device_get_max_work_group_size false o s).error = none ∧
    gocl_device_get_default_queue false d oq s
      = gocl_device_get_default_queue true d oq s := by
  refine ⟨rfl, rfl, ?_, ?_, ?_, ?_, rfl⟩ <;>
    simp [gocl_device_get_max_work_group_size]

/-- A concrete heap where every object initially holds one reference. -/
def hInit : Heap := ⟨fun _ => 1, fun _ => 1⟩

/-- Evaluation of a fresh-cache call whose native query fails: the state is
unchanged and the native layer was consulted. -/
lemma mwgs_error_eval (c : Int) (s : GoclDevicePrivate)
    (h0 : ¬ 0 < s.max_work_group_size) :
    (gocl_device_get_max_work_group_size true (.error c) s).state = s ∧
    (gocl_device_get_max_work_group_size true (.error c) s).queried = true := by
  by_cases hc : c = 0 <;>
    simp [gocl_device_get_max_work_group_size, h0, gocl_error_check_opencl, hc]

/-- Evaluation of a fresh-cache call whose native query succeeds with value
`v`: the value is returned, memoized, and the native layer was consulted. -/
lemma mwgs_ok_eval (v : Nat) (s : GoclDevicePrivate)
    (h0 : ¬ 0 < s.max_work_group_size) :
    gocl_device_get_max_work_group_size true (.ok v) s
      = ⟨v, none, { s with max_work_group_size := v }, true⟩ := by
  simp [gocl_device_get_max_work_group_size, h0, gocl_error_check_opencl]

/-- No `gocl_device_get_max_work_group_size` call changes the context
back-reference. -/
lemma mwgs_context_frame (o : Except Int Nat) (s : GoclDevicePrivate) :
    (gocl_device_get_max_work_group_size true o s).state.context = s.context := by
  by_cases hc : 0 < s.max_work_group_size
  · simp [mwgs_cached o s hc]
  · cases o with
    | ok v => simp [mwgs_ok_eval v s hc]
    | error c => simp [(mwgs_error_eval c s hc).1]

/-- No `gocl_device_get_default_queue` call changes the context
back-reference. -/
lemma queue_context_frame (b : Bool) (d : Nat) (o : Except GErrorV Nat)
    (s : GoclDevicePrivate) :
    (gocl_device_get_default_queue b d o s).state.context = s.context := by
  by_cases h : s.queue = none
  · cases o <;> simp [gocl_device_get_default_queue, h]
  · simp [gocl_device_get_default_queue, h]

/-- C3 counterexample: on a heap where context object 0 holds exactly one
reference, constructing a device with that context raises the context's
reference count (to 2), so construction does not leave the reference count
unchanged: the stored back-reference is taken with `g_value_dup_object` and
is owning, not weak. -/
theorem deviceContext_refcount_changed :
    ¬ ((gocl_device_construct (some 0) 7 hInit).2.ctxRefcount 0
        = hInit.ctxRefcount 0) := by decide

/-- C3 amended: the Device-to-Context back-reference is owning: constructing
a device with a context increments that context's reference count by one
and stores the reference, and disposing the device releases it, restoring
the original count. -/
theorem deviceContext_ref_owning (c did : Nat) (h : Heap) :
    (gocl_device_construct (some c) did h).2.ctxRefcount c
      = h.ctxRefcount c + 1 ∧
    (gocl_device_construct (some c) did h).1.context = some c ∧
    (gocl_device_dispose (gocl_device_construct (some c) did h).1
        (gocl_device_construct (some c) did h).2).2.ctxRefcount c
      = h.ctxRefcount c := by
  refine ⟨?_, rfl, ?_⟩ <;>
    simp [gocl_device_construct, gocl_device_init, zeroInstance, set_property,
          g_value_dup_object, GValueV.asObject, gocl_device_dispose, ctxRef,
          ctxUnref, queueUnref]

/-- C6: the "context" property is construct-only; a device constructed with
a context (as contexts construct their devices) stores it, so
`gocl_device_get_context` returns that non-null context; and neither of the
state-mutating device operations ever reassigns the context
back-reference. -/
theorem context_construct_only_nonnull (c did : Nat) (h : Heap)
    (o : Except Int Nat) (d : Nat) (oq : Except GErrorV Nat) :
    context_property_construct_only = true ∧
    (gocl_device_construct (some c) did h).1.context = some c ∧
    gocl_device_get_context true (gocl_device_construct (some c) did h).1
      = some c ∧
    (∀ s : GoclDevicePrivate,
        (gocl_device_get_max_work_group_size true o s).state.context
          = s.context) ∧
    (∀ b : Bool, ∀ s : GoclDevicePrivate,
        (gocl_device_get_default_queue b d oq s).state.context = s.context) :=
  ⟨rfl, rfl, rfl, fun s => mwgs_context_frame o s,
   fun b s => queue_context_frame b d oq s⟩

/-- C7: for every context and every index below the device count, looking
the device up by index yields a device whose context back-reference is the
originating context object itself. -/
theorem getDeviceByIndex_context_identity (ctx : GoclContextObj) (i : Nat)
    (h : Heap) (hi : i < gocl_context_get_num_devices ctx) :
    ∃ d, (gocl_context_get_device_by_index ctx i h).1 = some d ∧
      gocl_device_get_context true d = some ctx.id := by
  have hg : ctx.deviceIds.get? i = some (ctx.deviceIds.get ⟨i, hi⟩) :=
    List.get?_eq_get hi
  unfold gocl_context_get_device_by_index
  rw [hg]
  exact ⟨_, rfl, rfl⟩

/-- Witness for C7 at a concrete one-device context. -/
theorem getDeviceByIndex_context_identity_witness :
    0 < gocl_context_get_num_devices ⟨5, [3]⟩ ∧
    (∃ d, (gocl_context_get_device_by_index ⟨5, [3]⟩ 0 hInit).1 = some d ∧
      gocl_device_get_context true d = some (GoclContextObj.mk 5 [3]).id) :=
  ⟨by decide, getDeviceByIndex_context_identity ⟨5, [3]⟩ 0 hInit (by decide)⟩

/-- C10: disposing a device holding a context reference and a cached queue
releases each exactly once (the counts drop by one) and sets both fields to
NULL, and a second dispose of the resulting state changes nothing. -/
theorem dispose_releases_once (hp : Heap) (c : Nat) (q : GoclQueueObj)
    (s : GoclDevicePrivate) (hc : s.context = some c) (hq : s.queue = some q) :
    (gocl_device_dispose s hp).1.context = none ∧
    (gocl_device_dispose s hp).1.queue = none ∧
    (gocl_device_dispose s hp).2.ctxRefcount c = hp.ctxRefcount c - 1 ∧
    (gocl_device_dispose s hp).2.queueRefcount q.id
      = hp.queueRefcount q.id - 1 ∧
    gocl_device_dispose (gocl_device_dispose s hp).1 (gocl_device_dispose s hp).2
      = gocl_device_dispose s hp := by
  obtain ⟨sc, sd, sm, sq⟩ := s
  simp only [GoclDevicePrivate.context, GoclDevicePrivate.queue] at hc hq
  subst hc
  subst hq
  simp [gocl_device_dispose, ctxUnref, queueUnref]

/-- Witness for C10 at a concrete device holding context 0 and queue 1. -/
theorem dispose_releases_once_witness :
    (GoclDevicePrivate.mk (some 0) 7 64 (some ⟨1, 7⟩)).context = some 0 ∧
    (GoclDevicePrivate.mk (some 0) 7 64 (some ⟨1, 7⟩)).queue = some ⟨1, 7⟩ ∧
    ((gocl_device_dispose ⟨some 0, 7, 64, some ⟨1, 7⟩⟩ hInit).1.context = none ∧
    (gocl_device_dispose ⟨some 0, 7, 64, some ⟨1, 7⟩⟩ hInit).1.queue = none ∧
    (gocl_device_dispose ⟨some 0, 7, 64, some ⟨1, 7⟩⟩ hInit).2.ctxRefcount 0
      = hInit.ctxRefcount 0 - 1 ∧
    (gocl_device_dispose ⟨some 0, 7, 64, some ⟨1, 7⟩⟩ hInit).2.queueRefcount
        (GoclQueueObj.mk 1 7).id
      = hInit.queueRefcount (GoclQueueObj.mk 1 7).id - 1 ∧
    gocl_device_dispose (gocl_device_dispose ⟨some 0, 7, 64, some ⟨1, 7⟩⟩ hInit).1
        (gocl_device_dispose ⟨some 0, 7, 64, some ⟨1, 7⟩⟩ hInit).2
      = gocl_device_dispose ⟨some 0, 7, 64, some ⟨1, 7⟩⟩ hInit) :=
  ⟨rfl, rfl, dispose_releases_once hInit 0 ⟨1, 7⟩ ⟨some 0, 7, 64, some ⟨1, 7⟩⟩ rfl rfl⟩

/-- Core invariant of the lazy memoization: starting from a zero cached
field, the field is zero after a call sequence exactly when no executed
native query succeeded, and it equals the value of the first successful
query thereafter (native queries report positive sizes). -/
lemma runMwgs_spec (os : List (Except Int Nat)) (s : GoclDevicePrivate)
    (hpos : ∀ v, Except.ok v ∈ os → 0 < v) (h0 : s.max_work_group_size = 0) :
    ((runMwgs os s).1.max_work_group_size = 0 ↔ (runMwgs os s).2 = false) ∧
    (∀ pre v post, os = pre ++ Except.ok v :: post →
        (∀ x ∈ pre, isOkInfo x = false) →
        (runMwgs os s).1.max_work_group_size = v) := by
  induction os generalizing s with
  | nil =>
      refine ⟨by simp [runMwgs, h0], ?_⟩
      intro pre v post hpre _
      exact absurd hpre (by simp)
  | cons o os ih =>
      have h0' : ¬ 0 < s.max_work_group_size := by omega
      cases o with
      | ok v =>
          have hv : 0 < v := hpos v (by simp)
          have hrun : runMwgs (Except.ok v :: os) s
              = ({ s with max_work_group_size := v }, true) := by
            simp [runMwgs, mwgs_ok_eval v s h0', isOkInfo,
                  runMwgs_pos os { s with max_work_group_size := v }
                    (by simpa using hv)]
          refine ⟨by rw [hrun]; simp; omega, ?_⟩
          intro pre w post hpre hfail
          cases pre with
          | nil =>
              simp only [List.nil_append, List.cons.injEq] at hpre
              obtain ⟨hw, -⟩ := hpre
              rw [hrun]
              simpa using hw
          | cons p pre2 =>
              simp only [List.cons_append, List.cons.injEq] at hpre
              obtain ⟨hp, -⟩ := hpre
              subst hp
              have hbad := hfail (Except.ok v) (by simp)
              simp [isOkInfo] at hbad
      | error c =>
          have hrun : runMwgs (Except.error c :: os) s = runMwgs os s := by
            have he := mwgs_error_eval c s h0'
            simp [runMwgs, he.1, he.2, isOkInfo]
          have ih2 := ih s (fun w hw => hpos w (by simp [hw])) h0
          refine ⟨by rw [hrun]; exact ih2.1, ?_⟩
          intro pre w post hpre hfail
          cases pre with
          | nil => simp at hpre
          | cons p pre2 =>
              simp only [List.cons_append, List.cons.injEq] at hpre
              obtain ⟨hp, hrest⟩ := hpre
              rw [hrun]
              exact ih2.2 pre2 w post hrest (fun x hx => hfail x (by simp [hx]))

/-- C8: the cached max-work-group-size field is zero exactly when no native
query has yet succeeded: it is zero at instance initialization, stays zero
while every executed query fails, and from the first successful query on
(native queries report positive sizes) it equals that query's value. -/
theorem maxWorkGroupSize_zero_iff_unqueried (os : List (Except Int Nat))
    (s : GoclDevicePrivate)
    (hpos : ∀ v, Except.ok v ∈ os → 0 < v)
    (h0 : s.max_work_group_size = 0) :
    (∀ t, (gocl_device_init t).max_work_group_size = 0) ∧
    ((runMwgs os s).1.max_work_group_size = 0 ↔ (runMwgs os s).2 = false) ∧
    (∀ pre v post, os = pre ++ Except.ok v :: post →
        (∀ x ∈ pre, isOkInfo x = false) →
        (runMwgs os s).1.max_work_group_size = v) :=
  ⟨fun _ => rfl, (runMwgs_spec os s hpos h0).1, (runMwgs_spec os s hpos h0).2⟩

/-- Witness for C8 on a failing query followed by a successful one. -/
theorem maxWorkGroupSize_zero_iff_unqueried_witness :
    (∀ v, Except.ok v ∈ ([.error 5, .ok 256] : List (Except Int Nat)) → 0 < v) ∧
    zeroInstance.max_work_group_size = 0 ∧
    ((∀ t, (gocl_device_init t).max_work_group_size = 0) ∧
    ((runMwgs [.error 5, .ok 256] zeroInstance).1.max_work_group_size = 0
        ↔ (runMwgs [.error 5, .ok 256] zeroInstance).2 = false) ∧
    (∀ pre v post,
        ([.error 5, .ok 256] : List (Except Int Nat)) = pre ++ Except.ok v :: post →
        (∀ x ∈ pre, isOkInfo x = false) →
        (runMwgs [.error 5, .ok 256] zeroInstance).1.max_work_group_size = v)) :=
  ⟨by intro v hv; simp at hv; omega, rfl,
   maxWorkGroupSize_zero_iff_unqueried [.error 5, .ok 256] zeroInstance
     (by intro v hv; simp at hv; omega) rfl⟩
